import Mathlib

/-!
Verification development for the SecureCheck Pro assessment engine.

Each definition below is a shallow embedding of a function of the
repository (src/server/nvd-service.ts, src/server/storage.ts, the
security-checks module, the routes module and the in-memory storage
module).  JavaScript numbers that only ever hold integers are modelled
as Nat or Int; CVSS base scores, which are decimal, are modelled as
rationals (they are only moved around, never computed with).  Fallible
asynchronous operations are modelled with Except; the value carried by
an error is the storage state at the moment the promise rejected.
-/

set_option linter.unusedVariables false

namespace SecureCheck

/-! ## Scoring function (security-checks module, calculateSecurityScore) -/

/-- Finding severity levels, from the shared schema. -/
inductive Severity where
  | critical | high | medium | low | info
  deriving DecidableEq, Repr

/-- Per-finding deduction table of calculateSecurityScore. -/
def severityDeductions : Severity → Nat
  | .critical => 25
  | .high => 15
  | .medium => 8
  | .low => 3
  | .info => 0

/-- Embedding of calculateSecurityScore.  The source receives records
and reads only their severity field, so the input is the list of
severities.  The empty case returns 100 early; otherwise the clamped
difference is returned. -/
def calculateSecurityScore (findings : List Severity) : Int :=
  if findings.length = 0 then 100
  else
    let totalDeduction : Int :=
      findings.foldl (fun acc f => acc + (severityDeductions f : Int)) 0
    max 0 (min 100 (100 - totalDeduction))

/-- Total deduction of a finding list, for stating the scoring formula. -/
def totalDeductionOf (findings : List Severity) : Int :=
  findings.foldl (fun acc f => acc + (severityDeductions f : Int)) 0

/-! ## Technology status rule (nvd-service.ts, determineSecurityStatus) -/

/-- Technology status values from the shared schema. -/
inductive TechStatus where
  | secure | vulnerable | unknown | checking
  deriving DecidableEq, Repr

/-- Embedding of determineSecurityStatus: the nested early returns of
the source become nested conditionals. -/
def determineSecurityStatus (totalVulnerabilities criticalCount highCount : Nat) :
    TechStatus :=
  if criticalCount > 0 ∨ highCount > 5 then .vulnerable
  else if totalVulnerabilities = 0 then .secure
  else if highCount > 0 ∨ totalVulnerabilities > 10 then .vulnerable
  else .secure

/-- Modelled from the wording of the specification: the status rule as a
priority-ordered rule list, first matching rule wins, default secure. -/
def specStatusRules (total crit high : Nat) : List (Bool × TechStatus) :=
  [ (decide (crit > 0) || decide (high > 5), .vulnerable),
    (decide (total = 0), .secure),
    (decide (high > 0) || decide (total > 10), .vulnerable) ]

/-- First matching rule of a priority list, with a default. -/
def firstMatch (rules : List (Bool × TechStatus)) (dflt : TechStatus) : TechStatus :=
  match rules with
  | [] => dflt
  | (c, r) :: rest => if c then r else firstMatch rest dflt

/-- Modelled from the wording of the specification: derived status via
the priority rule list. -/
def specSecurityStatus (total crit high : Nat) : TechStatus :=
  firstMatch (specStatusRules total crit high) .secure

/-! ## Severity normalizer (nvd-service.ts, getSeverity / getCvssScore) -/

/-- Canonical severity labels of normalized CVE records. -/
inductive NvdSeverity where
  | CRITICAL | HIGH | MEDIUM | LOW | UNKNOWN
  deriving DecidableEq, Repr

/-- CVSS v3.1 data payload (the newer scheme): base score and severity label. -/
structure CvssV31Data where
  baseScore : Rat
  baseSeverity : String
  deriving DecidableEq, Repr

/-- One entry of the cvssMetricV31 array. -/
structure CvssV31Entry where
  cvssData : CvssV31Data
  deriving DecidableEq, Repr

/-- CVSS v2 data payload (the older scheme): base score only. -/
structure CvssV2Data where
  baseScore : Rat
  deriving DecidableEq, Repr

/-- One entry of the cvssMetricV2 array; its severity label sits beside
the data object and is optional. -/
structure CvssV2Entry where
  cvssData : CvssV2Data
  baseSeverity : Option String
  deriving DecidableEq, Repr

/-- The optional metrics object of a raw NVD item; each scheme is an
optional array of entries. -/
structure NvdMetrics where
  cvssMetricV31 : Option (List CvssV31Entry)
  cvssMetricV2 : Option (List CvssV2Entry)
  deriving DecidableEq, Repr

/-- A raw NVD vulnerability item (the fields the engine reads):
identifier, language-tagged descriptions, publication date, optional
metrics. -/
structure NvdCveItem where
  id : String
  descriptions : List (String × String)
  published : String
  metrics : Option NvdMetrics
  deriving DecidableEq, Repr

/-- The first cvssMetricV31 entry of an item, if any: the optional
chaining metrics?.cvssMetricV31?.[0] of the source. -/
def firstV31 (item : NvdCveItem) : Option CvssV31Entry :=
  (item.metrics.bind (·.cvssMetricV31)).bind List.head?

/-- The first cvssMetricV2 entry of an item, if any. -/
def firstV2 (item : NvdCveItem) : Option CvssV2Entry :=
  (item.metrics.bind (·.cvssMetricV2)).bind List.head?

/-- Uppercasing of a severity label (the string toUpperCase call of the
source), written as a map over the character list so that it evaluates
inside the kernel; it agrees with the library uppercase on these ASCII
labels. -/
def toUpperCase (s : String) : String := String.mk (s.data.map Char.toUpper)

/-- The accepted uppercased v3.1 labels of getSeverity; any other label
falls through to the older scheme. -/
def labelToSeverityV31 (s : String) : Option NvdSeverity :=
  if s = "CRITICAL" then some .CRITICAL
  else if s = "HIGH" then some .HIGH
  else if s = "MEDIUM" then some .MEDIUM
  else if s = "LOW" then some .LOW
  else none

/-- The accepted uppercased v2 labels of getSeverity (no CRITICAL in the
older scheme); any other label falls through to UNKNOWN. -/
def labelToSeverityV2 (s : String) : Option NvdSeverity :=
  if s = "HIGH" then some .HIGH
  else if s = "MEDIUM" then some .MEDIUM
  else if s = "LOW" then some .LOW
  else none

/-- Embedding of getSeverity.  The early returns of the source become an
Option chain: a v3.1 entry whose uppercased label is accepted wins;
otherwise a v2 entry with an accepted uppercased label; otherwise
UNKNOWN. -/
def getSeverity (item : NvdCveItem) : NvdSeverity :=
  let fromV31 : Option NvdSeverity :=
    match firstV31 item with
    | some e => labelToSeverityV31 (toUpperCase e.cvssData.baseSeverity)
    | none => none
  match fromV31 with
  | some s => s
  | none =>
    let fromV2 : Option NvdSeverity :=
      match firstV2 item with
      | some e =>
        match e.baseSeverity with
        | some lbl => labelToSeverityV2 (toUpperCase lbl)
        | none => none
      | none => none
    fromV2.getD .UNKNOWN

/-- Embedding of getCvssScore: the v3.1 base score if a v3.1 entry is
present, else the v2 base score if a v2 entry is present, else absent. -/
def getCvssScore (item : NvdCveItem) : Option Rat :=
  match firstV31 item with
  | some e => some e.cvssData.baseScore
  | none =>
    match firstV2 item with
    | some e => some e.cvssData.baseScore
    | none => none

/-- Modelled from the wording of the specification: canonical severity
prefers the newer scheme label when present and accepted, else the older
scheme label when accepted, else UNKNOWN. -/
def specSeverityNorm (item : NvdCveItem) : NvdSeverity :=
  match (firstV31 item).bind (fun e => labelToSeverityV31 (toUpperCase e.cvssData.baseSeverity)) with
  | some s => s
  | none =>
    match (firstV2 item).bind (fun e =>
        e.baseSeverity.bind (fun lbl => labelToSeverityV2 (toUpperCase lbl))) with
    | some s => s
    | none => .UNKNOWN

/-- Modelled from the wording of the specification: numeric score
prefers the newer scheme, else the older scheme, else absent. -/
def specScoreNorm (item : NvdCveItem) : Option Rat :=
  ((firstV31 item).map (·.cvssData.baseScore)).orElse
    (fun _ => (firstV2 item).map (·.cvssData.baseScore))

/-! ## CVE fetch (nvd-service.ts, fetchCvesForTechnology) -/

/-- Normalized CVE record embedded in a technology. -/
structure CveRecord where
  cveId : String
  description : String
  severity : NvdSeverity
  cvssScore : Option Rat
  publishedDate : String
  deriving DecidableEq, Repr

/-- The parsed body of a successful NVD response. -/
structure NvdResponse where
  totalResults : Nat
  vulnerabilities : List NvdCveItem
  deriving DecidableEq, Repr

/-- The per-item mapping of fetchCvesForTechnology: pick the english
description (with the fallback text of the source), normalize severity
and score. -/
def toCveRecord (item : NvdCveItem) : CveRecord :=
  { cveId := item.id
    description :=
      ((item.descriptions.find? (fun d => d.1 = "en")).map (·.2)).getD
        "No description available"
    severity := getSeverity item
    cvssScore := getCvssScore item
    publishedDate := item.published }

/-- The severityOrder table of the top-5 comparator. -/
def severityOrder : NvdSeverity → Nat
  | .CRITICAL => 0
  | .HIGH => 1
  | .MEDIUM => 2
  | .LOW => 3
  | .UNKNOWN => 4

/-- The sort comparator of the top-5 selection, as a total boolean
order: a sorts no later than b when its severity ranks strictly more
severe, or the severities tie and its score (absent read as 0) is at
least the score of b. -/
def cveBefore (a b : CveRecord) : Bool :=
  if severityOrder a.severity ≠ severityOrder b.severity then
    decide (severityOrder a.severity < severityOrder b.severity)
  else
    decide (b.cvssScore.getD 0 ≤ a.cvssScore.getD 0)

/-- Insertion of one record into a list sorted by cveBefore. -/
def insertCve (a : CveRecord) : List CveRecord → List CveRecord
  | [] => [a]
  | b :: rest => if cveBefore a b then a :: b :: rest else b :: insertCve a rest

/-- Stable sort by the top-5 comparator (denotation of the array sort of
the source). -/
def sortCves : List CveRecord → List CveRecord
  | [] => []
  | a :: rest => insertCve a (sortCves rest)

/-- The result shape of fetchCvesForTechnology. -/
structure FetchResult where
  cves : List CveRecord
  topCves : List CveRecord
  totalCount : Nat
  criticalCount : Nat
  highCount : Nat
  deriving DecidableEq, Repr

/-- The zero-result shape returned on a 429 response and from the catch
branch. -/
def fetchFailShape : FetchResult :=
  { cves := [], topCves := [], totalCount := 0, criticalCount := 0, highCount := 0 }

/-- One outcome of the external HTTP call: a parsed successful
response, a non-ok HTTP status, or a thrown transport error. -/
inductive FetchOutcome where
  | ok (resp : NvdResponse)
  | httpError (status : Nat)
  | exn
  deriving DecidableEq, Repr

/-- Embedding of fetchCvesForTechnology, parameterized by the outcome
of the wrapped external call.  A 429 returns the zero shape directly;
any other non-ok status throws and is caught by the catch branch of the
same function, which also returns the zero shape; a transport error is
likewise absorbed.  On success, records are normalized, counts are
computed over the returned page while totalCount is the totalResults
field of the response, and the top five most severe records are kept. -/
def fetchCvesForTechnology (outcome : FetchOutcome) : FetchResult :=
  match outcome with
  | .exn => fetchFailShape
  | .httpError status =>
    if status = 429 then fetchFailShape
    else
      -- the source throws here; its own catch branch returns the zero shape
      fetchFailShape
  | .ok resp =>
    let cves := resp.vulnerabilities.map toCveRecord
    let criticalCount := (cves.filter (fun c => c.severity = .CRITICAL)).length
    let highCount := (cves.filter (fun c => c.severity = .HIGH)).length
    let topCves := (sortCves cves).take 5
    { cves := cves
      topCves := topCves
      totalCount := resp.totalResults
      criticalCount := criticalCount
      highCount := highCount }

/-! ## Technology tracker (nvd-service.ts + storage, technologies table) -/

/-- A tracked technology (the fields the engine logic reads or writes;
descriptive fields such as category, cpe and version strings are
carried nowhere by the claims and are omitted). -/
structure Technology where
  id : String
  name : String
  vendor : String
  status : TechStatus
  vulnerabilityCount : Nat
  criticalCount : Nat
  highCount : Nat
  topCves : List CveRecord
  lastCheckedAt : Option Nat
  deriving DecidableEq, Repr

/-- A partial technology update (Partial of the source): a present
field overwrites, an absent field keeps the stored value.  The id is
never part of an update in the source. -/
structure TechUpdates where
  status : Option TechStatus := none
  vulnerabilityCount : Option Nat := none
  criticalCount : Option Nat := none
  highCount : Option Nat := none
  topCves : Option (List CveRecord) := none
  lastCheckedAt : Option Nat := none
  deriving DecidableEq, Repr

/-- Merge of a partial update into a stored technology (the set clause
of updateTechnology). -/
def applyTechUpdates (t : Technology) (u : TechUpdates) : Technology :=
  { t with
    status := u.status.getD t.status
    vulnerabilityCount := u.vulnerabilityCount.getD t.vulnerabilityCount
    criticalCount := u.criticalCount.getD t.criticalCount
    highCount := u.highCount.getD t.highCount
    topCves := u.topCves.getD t.topCves
    lastCheckedAt :=
      match u.lastCheckedAt with
      | some v => some v
      | none => t.lastCheckedAt }

/-- Embedding of storage updateTechnology: update every row whose id
matches (ids are unique in the store, so at most one row changes). -/
def updateTechnology (st : List Technology) (id : String) (u : TechUpdates) :
    List Technology :=
  st.map (fun t => if t.id = id then applyTechUpdates t u else t)

/-- The first write of a check: mark the technology as checking. -/
def checkingUpdate : TechUpdates := { status := some .checking }

/-- The final write of a check: counts, top list, derived status and
the check timestamp. -/
def resultUpdate (r : FetchResult) (status : TechStatus) (now : Nat) : TechUpdates :=
  { vulnerabilityCount := some r.totalCount
    criticalCount := some r.criticalCount
    highCount := some r.highCount
    topCves := some r.topCves
    status := some status
    lastCheckedAt := some now }

/-- Embedding of checkSingleTechnology (also the loop body of
checkAllTechnologies): mark checking, fetch, derive status, write back.
The storage writes of this pure model always succeed; the fallible
variant below models rejecting writes. -/
def checkSingleTechnology (outcome : FetchOutcome) (now : Nat)
    (st : List Technology) (tech : Technology) : List Technology :=
  let st1 := updateTechnology st tech.id checkingUpdate
  let r := fetchCvesForTechnology outcome
  let status := determineSecurityStatus r.totalCount r.criticalCount r.highCount
  updateTechnology st1 tech.id (resultUpdate r status now)

/-- Embedding of checkAllTechnologies: snapshot the technology list,
then sequentially run the loop body on each snapshot element.  In the
pure model nothing inside the loop throws (the fetch absorbs its own
failures), so the catch branch of the source loop, which would write
status unknown, is unreachable here. -/
def checkAllTechnologies (env : Technology → FetchOutcome) (now : Nat)
    (st : List Technology) : List Technology :=
  st.foldl (fun acc tech => checkSingleTechnology (env tech) now acc tech) st

/-- Fallible variant of checkSingleTechnology: fault i = true means the
i-th updateTechnology call of this run rejects (a storage I/O error).
The error value is the storage state at the instant of the rejection;
the source function has no catch, so the rejection propagates to the
caller with no further write. -/
def checkSingleTechnologyF (fault : Nat → Bool) (outcome : FetchOutcome)
    (now : Nat) (st : List Technology) (tech : Technology) :
    Except (List Technology) (List Technology) :=
  if fault 0 then .error st
  else
    let st1 := updateTechnology st tech.id checkingUpdate
    let r := fetchCvesForTechnology outcome
    let status := determineSecurityStatus r.totalCount r.criticalCount r.highCount
    if fault 1 then .error st1
    else .ok (updateTechnology st1 tech.id (resultUpdate r status now))

/-- The seeded default technologies (ids are database-generated UUIDs
in the source; the model stands them in by the name, which is unique in
this list).  Every default starts with status unknown and zero counts. -/
def defaultTechnologies : List Technology :=
  [ { id := "Node.js", name := "Node.js", vendor := "nodejs", status := .unknown,
      vulnerabilityCount := 0, criticalCount := 0, highCount := 0, topCves := [], lastCheckedAt := none },
    { id := "React", name := "React", vendor := "facebook", status := .unknown,
      vulnerabilityCount := 0, criticalCount := 0, highCount := 0, topCves := [], lastCheckedAt := none },
    { id := "Express", name := "Express", vendor := "expressjs", status := .unknown,
      vulnerabilityCount := 0, criticalCount := 0, highCount := 0, topCves := [], lastCheckedAt := none },
    { id := "Python", name := "Python", vendor := "python", status := .unknown,
      vulnerabilityCount := 0, criticalCount := 0, highCount := 0, topCves := [], lastCheckedAt := none },
    { id := "Django", name := "Django", vendor := "djangoproject", status := .unknown,
      vulnerabilityCount := 0, criticalCount := 0, highCount := 0, topCves := [], lastCheckedAt := none },
    { id := "PostgreSQL", name := "PostgreSQL", vendor := "postgresql", status := .unknown,
      vulnerabilityCount := 0, criticalCount := 0, highCount := 0, topCves := [], lastCheckedAt := none },
    { id := "MySQL", name := "MySQL", vendor := "oracle", status := .unknown,
      vulnerabilityCount := 0, criticalCount := 0, highCount := 0, topCves := [], lastCheckedAt := none },
    { id := "MongoDB", name := "MongoDB", vendor := "mongodb", status := .unknown,
      vulnerabilityCount := 0, criticalCount := 0, highCount := 0, topCves := [], lastCheckedAt := none },
    { id := "Nginx", name := "Nginx", vendor := "nginx", status := .unknown,
      vulnerabilityCount := 0, criticalCount := 0, highCount := 0, topCves := [], lastCheckedAt := none },
    { id := "Apache HTTP Server", name := "Apache HTTP Server", vendor := "apache", status := .unknown,
      vulnerabilityCount := 0, criticalCount := 0, highCount := 0, topCves := [], lastCheckedAt := none },
    { id := "PHP", name := "PHP", vendor := "php", status := .unknown,
      vulnerabilityCount := 0, criticalCount := 0, highCount := 0, topCves := [], lastCheckedAt := none },
    { id := "Laravel", name := "Laravel", vendor := "laravel", status := .unknown,
      vulnerabilityCount := 0, criticalCount := 0, highCount := 0, topCves := [], lastCheckedAt := none },
    { id := "Vue.js", name := "Vue.js", vendor := "vuejs", status := .unknown,
      vulnerabilityCount := 0, criticalCount := 0, highCount := 0, topCves := [], lastCheckedAt := none },
    { id := "Angular", name := "Angular", vendor := "google", status := .unknown,
      vulnerabilityCount := 0, criticalCount := 0, highCount := 0, topCves := [], lastCheckedAt := none },
    { id := "Redis", name := "Redis", vendor := "redis", status := .unknown,
      vulnerabilityCount := 0, criticalCount := 0, highCount := 0, topCves := [], lastCheckedAt := none },
    { id := "Docker", name := "Docker", vendor := "docker", status := .unknown,
      vulnerabilityCount := 0, criticalCount := 0, highCount := 0, topCves := [], lastCheckedAt := none },
    { id := "Kubernetes", name := "Kubernetes", vendor := "kubernetes", status := .unknown,
      vulnerabilityCount := 0, criticalCount := 0, highCount := 0, topCves := [], lastCheckedAt := none },
    { id := "WordPress", name := "WordPress", vendor := "wordpress", status := .unknown,
      vulnerabilityCount := 0, criticalCount := 0, highCount := 0, topCves := [], lastCheckedAt := none },
    { id := "Spring Boot", name := "Spring Boot", vendor := "vmware", status := .unknown,
      vulnerabilityCount := 0, criticalCount := 0, highCount := 0, topCves := [], lastCheckedAt := none },
    { id := "Ruby on Rails", name := "Ruby on Rails", vendor := "rubyonrails", status := .unknown,
      vulnerabilityCount := 0, criticalCount := 0, highCount := 0, topCves := [], lastCheckedAt := none } ]

/-- Embedding of createTechnology: insert a new row. -/
def createTechnology (st : List Technology) (tech : Technology) : List Technology :=
  st ++ [tech]

/-- Embedding of seedTechnologies: insert the defaults only into an
empty store. -/
def seedTechnologies (st : List Technology) : List Technology :=
  if st.length = 0 then defaultTechnologies.foldl createTechnology st else st

/-- Embedding of storage deleteTechnology: delete every row whose id
matches (a no-op when none does) and return true unconditionally. -/
def deleteTechnology (st : List Technology) (id : String) :
    List Technology × Bool :=
  (st.filter (fun t => ¬ t.id = id), true)

/-- Responses of the delete-technology endpoint: the success payload or
the 500 error payload of the catch branch. -/
inductive DeleteResponse where
  | successTrue
  | serverError
  deriving DecidableEq, Repr

/-- Embedding of the delete-technology route handler: await the storage
delete and answer the success payload.  The catch branch answering a 500
is unreachable in the pure model because the storage delete never
rejects. -/
def routeDeleteTechnology (st : List Technology) (id : String) :
    List Technology × DeleteResponse :=
  ((deleteTechnology st id).1, .successTrue)

/-! ## Scan lifecycle (routes module + in-memory storage updateScan) -/

/-- Scan lifecycle statuses from the shared schema. -/
inductive ScanStatus where
  | pending | running | completed | cancelled | failed
  deriving DecidableEq, Repr

/-- Terminal statuses per the lifecycle state machine (everything
except pending and running). -/
def ScanStatus.isTerminal : ScanStatus → Bool
  | .completed => true
  | .cancelled => true
  | .failed => true
  | _ => false

/-- A stored scan (the fields the lifecycle logic reads or writes). -/
structure Scan where
  status : ScanStatus
  overallScore : Option Int
  completedAt : Option Nat
  deriving DecidableEq, Repr

/-- A partial scan update: a present field overwrites. -/
structure ScanUpdates where
  status : Option ScanStatus := none
  overallScore : Option Int := none
  completedAt : Option Nat := none
  deriving DecidableEq, Repr

/-- Embedding of the in-memory updateScan: an unconditional spread
merge of the update into the stored scan — no status guard of any
kind. -/
def applyScanUpdates (s : Scan) (u : ScanUpdates) : Scan :=
  { status := u.status.getD s.status
    overallScore :=
      match u.overallScore with
      | some v => some v
      | none => s.overallScore
    completedAt :=
      match u.completedAt with
      | some v => some v
      | none => s.completedAt }

/-- A freshly created scan (createScan): pending, no score, no
completion timestamp. -/
def freshScan : Scan :=
  { status := .pending, overallScore := none, completedAt := none }

/-- The write the create route issues right after creation. -/
def startScan (s : Scan) : Scan :=
  applyScanUpdates s { status := some .running }

/-- The success branch of the scheduled completion callback: it
computes the score of the generated findings and writes status
completed, the completion instant and the score — without reading the
current status first. -/
def completionSuccess (findings : List Severity) (now : Nat) (s : Scan) : Scan :=
  applyScanUpdates s
    { status := some .completed
      completedAt := some now
      overallScore := some (calculateSecurityScore findings) }

/-- The catch branch of the scheduled completion callback: write status
failed, nothing else. -/
def completionFailure (s : Scan) : Scan :=
  applyScanUpdates s { status := some .failed }

/-- Embedding of the cancel route: reject (with no write) unless the
status is running or pending, else write status cancelled and a
completion instant.  Returns none exactly when the route answers the
400 rejection. -/
def cancelScan (now : Nat) (s : Scan) : Option Scan :=
  if s.status ≠ .running ∧ s.status ≠ .pending then none
  else some (applyScanUpdates s { status := some .cancelled, completedAt := some now })

/-! ## Rate limiter (nvd-service.ts, rateLimitedFetch) -/

/-- The fixed minimum inter-request interval (milliseconds). -/
def RATE_LIMIT_DELAY : Nat := 6500

/-- The instant the outbound request of one rateLimitedFetch call
begins: the call reads the shared timestamp at callNow; if the elapsed
time is below the delay it sleeps for the difference, so it wakes at
callNow plus that difference; otherwise it proceeds at once. -/
def wakeTime (callNow lastRequestTime : Nat) : Nat :=
  if callNow - lastRequestTime < RATE_LIMIT_DELAY then
    callNow + (RATE_LIMIT_DELAY - (callNow - lastRequestTime))
  else callNow

/-- One uninterrupted run of rateLimitedFetch: the request start
instant together with the new shared timestamp (both equal the wake
instant, since the source assigns the current time right before the
fetch). -/
def rateLimitedFetchRun (callNow lastRequestTime : Nat) : Nat × Nat :=
  (wakeTime callNow lastRequestTime, wakeTime callNow lastRequestTime)

/-- Two sequential runs: the second call reads the timestamp written by
the first.  Returns the two request start instants. -/
def sequentialRuns (lastRequestTime tA tB : Nat) : Nat × Nat :=
  let first := rateLimitedFetchRun tA lastRequestTime
  let second := rateLimitedFetchRun tB first.2
  (first.1, second.1)

/-- Two overlapping runs under the event-loop schedule in which both
calls read the shared timestamp before either writes it: the source
awaits its sleep between the read and the write, so a second call
entering during the sleep of the first still observes the stale
timestamp.  Returns the two request start instants. -/
def overlappedRuns (lastRequestTime tA tB : Nat) : Nat × Nat :=
  ((rateLimitedFetchRun tA lastRequestTime).1,
    (rateLimitedFetchRun tB lastRequestTime).1)

/-! ## Derived notions and helper lemmas -/

/-- The composite row rewrite one technology check performs on a
matching row: the checking mark followed by the result write. -/
def checkWrite (outcome : FetchOutcome) (now : Nat) (t0 : Technology) : Technology :=
  applyTechUpdates (applyTechUpdates t0 checkingUpdate)
    (resultUpdate (fetchCvesForTechnology outcome)
      (determineSecurityStatus (fetchCvesForTechnology outcome).totalCount
        (fetchCvesForTechnology outcome).criticalCount
        (fetchCvesForTechnology outcome).highCount) now)

/-- The pagination contract of the external database: a response page
never holds more items than the reported total. -/
def paginationOk : FetchOutcome → Prop
  | .ok resp => resp.vulnerabilities.length ≤ resp.totalResults
  | _ => True

/-- The count invariant of a stored technology. -/
def techCountsInv (t : Technology) : Prop :=
  t.criticalCount ≤ t.vulnerabilityCount ∧ t.highCount ≤ t.vulnerabilityCount

instance (t : Technology) : Decidable (techCountsInv t) :=
  inferInstanceAs (Decidable (_ ∧ _))

theorem applyTechUpdates_id (t : Technology) (u : TechUpdates) :
    (applyTechUpdates t u).id = t.id := rfl

theorem checkSingle_eq_map (outcome : FetchOutcome) (now : Nat)
    (st : List Technology) (tech : Technology) :
    checkSingleTechnology outcome now st tech =
      st.map (fun t0 => if t0.id = tech.id then checkWrite outcome now t0 else t0) := by
  unfold checkSingleTechnology updateTechnology
  rw [List.map_map]
  apply List.map_congr_left
  intro t0 _
  by_cases h : t0.id = tech.id <;>
    simp [Function.comp, h, applyTechUpdates_id, checkWrite]

/-- Counts produced by the fetch never exceed the reported total, given
the pagination contract. -/
theorem fetch_counts_le (outcome : FetchOutcome) (h : paginationOk outcome) :
    (fetchCvesForTechnology outcome).criticalCount ≤
        (fetchCvesForTechnology outcome).totalCount ∧
      (fetchCvesForTechnology outcome).highCount ≤
        (fetchCvesForTechnology outcome).totalCount := by
  cases outcome with
  | exn => exact ⟨Nat.le_refl 0, Nat.le_refl 0⟩
  | httpError s =>
    by_cases h429 : s = 429 <;>
      simp [fetchCvesForTechnology, h429, fetchFailShape]
  | ok resp =>
    unfold paginationOk at h
    have hcrit : (fetchCvesForTechnology (.ok resp)).criticalCount =
        (List.filter (fun c => decide (c.severity = NvdSeverity.CRITICAL))
          (resp.vulnerabilities.map toCveRecord)).length := rfl
    have hhigh : (fetchCvesForTechnology (.ok resp)).highCount =
        (List.filter (fun c => decide (c.severity = NvdSeverity.HIGH))
          (resp.vulnerabilities.map toCveRecord)).length := rfl
    have htot : (fetchCvesForTechnology (.ok resp)).totalCount =
        resp.totalResults := rfl
    constructor
    · rw [hcrit, htot]
      calc (List.filter (fun c => decide (c.severity = NvdSeverity.CRITICAL))
            (resp.vulnerabilities.map toCveRecord)).length
          ≤ (resp.vulnerabilities.map toCveRecord).length :=
            List.length_filter_le _ _
        _ = resp.vulnerabilities.length := List.length_map _ _
        _ ≤ resp.totalResults := h
    · rw [hhigh, htot]
      calc (List.filter (fun c => decide (c.severity = NvdSeverity.HIGH))
            (resp.vulnerabilities.map toCveRecord)).length
          ≤ (resp.vulnerabilities.map toCveRecord).length :=
            List.length_filter_le _ _
        _ = resp.vulnerabilities.length := List.length_map _ _
        _ ≤ resp.totalResults := h

/-- Bookkeeping lemma for the sequential bulk check: if every stored
row either still awaits processing or already satisfies P, and the
rewrite a check performs always yields P, then after the fold every row
satisfies P. -/
theorem checkAll_processed (env : Technology → FetchOutcome) (now : Nat)
    (P : Technology → Prop)
    (hP : ∀ tech t0, P (checkWrite (env tech) now t0)) :
    ∀ (pending st : List Technology),
      (∀ t ∈ st, t.id ∈ pending.map Technology.id ∨ P t) →
      ∀ t ∈ pending.foldl
          (fun acc tech => checkSingleTechnology (env tech) now acc tech) st,
        P t := by
  intro pending
  induction pending with
  | nil =>
    intro st h t ht
    simp only [List.foldl_nil] at ht
    rcases h t ht with hmem | hp
    · simp at hmem
    · exact hp
  | cons p ps ih =>
    intro st h t ht
    simp only [List.foldl_cons] at ht
    refine ih (checkSingleTechnology (env p) now st p) ?_ t ht
    intro t1 ht1
    rw [checkSingle_eq_map] at ht1
    rcases List.mem_map.mp ht1 with ⟨t0, ht0, rfl⟩
    by_cases hid : t0.id = p.id
    · right
      simpa [hid] using hP p t0
    · rcases h t0 ht0 with hmem | hp
      · simp only [List.map_cons, List.mem_cons] at hmem
        rcases hmem with heq | hmem
        · exact absurd heq hid
        · left
          simpa [hid] using hmem
      · right
        simpa [hid] using hp

/-! ## Claim theorems -/

/-- Claim C5: for every finding list the security score is an integer
in the range 0 to 100, the score of the empty list is 100, and the
score always equals the clamp of 100 minus the summed per-severity
deductions (critical 25, high 15, medium 8, low 3, info 0). -/
theorem C5_score_properties (findings : List Severity) :
    0 ≤ calculateSecurityScore findings ∧
      calculateSecurityScore findings ≤ 100 ∧
      calculateSecurityScore [] = 100 ∧
      calculateSecurityScore findings =
        max 0 (min 100 (100 - totalDeductionOf findings)) := by
  by_cases h : findings.length = 0
  · have hnil : findings = [] := List.length_eq_zero.mp h
    subst hnil
    refine ⟨by decide, by decide, by decide, ?_⟩
    decide
  · have hscore : calculateSecurityScore findings =
        max 0 (min 100 (100 - totalDeductionOf findings)) := by
      simp only [calculateSecurityScore, totalDeductionOf, h, if_false]
    refine ⟨?_, ?_, by decide, hscore⟩
    · rw [hscore]; exact le_max_left 0 _
    · rw [hscore]
      exact max_le (by norm_num) (min_le_left _ _)

/-- Claim C7: the derived technology status agrees with the
priority-ordered rule list of the specification on all non-negative
counts, and the six concrete cases of the specification hold. -/
theorem C7_status_rule_priority :
    (∀ total crit high : Nat,
        determineSecurityStatus total crit high = specSecurityStatus total crit high) ∧
      determineSecurityStatus 1 1 0 = .vulnerable ∧
      determineSecurityStatus 6 0 6 = .vulnerable ∧
      determineSecurityStatus 0 0 0 = .secure ∧
      determineSecurityStatus 1 0 1 = .vulnerable ∧
      determineSecurityStatus 11 0 0 = .vulnerable ∧
      determineSecurityStatus 5 0 0 = .secure := by
  refine ⟨?_, by decide, by decide, by decide, by decide, by decide, by decide⟩
  intro total crit high
  simp only [determineSecurityStatus, specSecurityStatus, specStatusRules, firstMatch,
    Bool.or_eq_true, decide_eq_true_eq]

/-- Claim C6 (amended): the normalizer realizes the two-tier fallback
of the specification — canonical severity is the newer scheme label
when present and accepted, else the older scheme label when accepted,
else UNKNOWN; the numeric score prefers the newer scheme, else the
older, else is absent.  A record carrying both schemes always reports
the newer scheme numeric score, and reports the newer scheme severity
whenever that label is accepted; when the newer label is not accepted
the severity falls back to the older scheme label. -/
theorem C6_two_tier_normalization :
    (∀ item, getSeverity item = specSeverityNorm item) ∧
      (∀ item, getCvssScore item = specScoreNorm item) ∧
      (∀ item e, firstV31 item = some e →
        getCvssScore item = some e.cvssData.baseScore) ∧
      (∀ item e s, firstV31 item = some e →
        labelToSeverityV31 (toUpperCase e.cvssData.baseSeverity) = some s →
        getSeverity item = s) := by
  refine ⟨?_, ?_, ?_, ?_⟩
  · intro item
    unfold getSeverity specSeverityNorm
    cases h31 : firstV31 item with
    | some e =>
      cases hl : labelToSeverityV31 (toUpperCase e.cvssData.baseSeverity) with
      | some s => simp [hl]
      | none =>
        cases h2 : firstV2 item with
        | some e2 =>
          cases hb : e2.baseSeverity with
          | some lbl =>
            cases hv : labelToSeverityV2 (toUpperCase lbl) <;> simp [hl, hb, hv]
          | none => simp [hl, hb]
        | none => simp [hl]
    | none =>
      cases h2 : firstV2 item with
      | some e2 =>
        cases hb : e2.baseSeverity with
        | some lbl =>
          cases hv : labelToSeverityV2 (toUpperCase lbl) <;> simp [hb, hv]
        | none => simp [hb]
      | none => simp
  · intro item
    unfold getCvssScore specScoreNorm
    cases h31 : firstV31 item with
    | some e => simp [Option.orElse]
    | none =>
      cases h2 : firstV2 item with
      | some e2 => simp [Option.orElse]
      | none => simp [Option.orElse]
  · intro item e h
    unfold getCvssScore
    rw [h]
  · intro item e s h hl
    simp [getSeverity, h, hl]

/-- A v3.1 entry with an accepted label, for instantiating the
normalizer theorem. -/
def acceptedV31Entry : CvssV31Entry :=
  { cvssData := { baseScore := 8, baseSeverity := "HIGH" } }

/-- A record carrying both schemes with an accepted newer label. -/
def bothSchemesAccepted : NvdCveItem :=
  { id := "CVE-2021-0001"
    descriptions := [("en", "demo")]
    published := "2021-01-01"
    metrics := some
      { cvssMetricV31 := some [acceptedV31Entry]
        cvssMetricV2 := some
          [{ cvssData := { baseScore := 3 }, baseSeverity := some "LOW" }] } }

/-- Witness for C6: the normalizer theorem instantiated at a record
carrying both schemes with the accepted newer label HIGH. -/
theorem C6_two_tier_normalization_witness :
    getCvssScore bothSchemesAccepted = some (8 : Rat) ∧
      getSeverity bothSchemesAccepted = NvdSeverity.HIGH :=
  ⟨C6_two_tier_normalization.2.2.1 bothSchemesAccepted acceptedV31Entry rfl,
    C6_two_tier_normalization.2.2.2 bothSchemesAccepted acceptedV31Entry
      NvdSeverity.HIGH rfl (by decide)⟩

/-- A record carrying both schemes whose newer label NONE (the v3.1
label of a zero base score) is not accepted. -/
def bothSchemesNoneLabel : NvdCveItem :=
  { id := "CVE-2021-0002"
    descriptions := [("en", "demo")]
    published := "2021-01-02"
    metrics := some
      { cvssMetricV31 := some [{ cvssData := { baseScore := 0, baseSeverity := "NONE" } }]
        cvssMetricV2 := some
          [{ cvssData := { baseScore := 3 }, baseSeverity := some "LOW" }] } }

/-- Counterexample for C6 as stated: a record carrying both schemes
whose reported severity is the older scheme label LOW, because the
newer scheme label NONE is not accepted — so such a record does not
always report the newer scheme values.  (The numeric score still comes
from the newer scheme.) -/
theorem C6_counterexample :
    (firstV31 bothSchemesNoneLabel).isSome = true ∧
      (firstV2 bothSchemesNoneLabel).isSome = true ∧
      labelToSeverityV31 (toUpperCase "NONE") = none ∧
      getSeverity bothSchemesNoneLabel = NvdSeverity.LOW ∧
      getCvssScore bothSchemesNoneLabel = some (0 : Rat) := by
  refine ⟨rfl, rfl, by decide, by decide, by decide⟩

/-- A tracked technology used to evaluate the bulk check. -/
def demoTech2 : Technology :=
  { id := "t2", name := "Express", vendor := "expressjs", status := .unknown,
    vulnerabilityCount := 0, criticalCount := 0, highCount := 0,
    topCves := [], lastCheckedAt := none }

/-- Counterexample for C2 as stated: with the external fetch failing on
every call, the bulk check over one technology leaves its status
secure, not unknown — the thrown fetch error is absorbed into the
zero-result shape, and zero counts map to secure under the status
rule. -/
theorem C2_counterexample :
    (checkAllTechnologies (fun _ => FetchOutcome.exn) 7 [demoTech2]).map
        Technology.status = [TechStatus.secure] ∧
      TechStatus.secure ≠ TechStatus.unknown := by
  refine ⟨by decide, by decide⟩

/-- Claim C2 (amended): if the external CVE fetch fails on every call,
then after the bulk check over N tracked technologies every technology
status is secure (not unknown): each failed fetch degrades to the
zero-result shape, whose counts the status rule maps to secure, and no
failure aborts the remaining checks — every technology is still
processed. -/
theorem C2_checkAll_failing_is_secure :
    ∀ (now : Nat) (st : List Technology),
      ∀ t ∈ checkAllTechnologies (fun _ => FetchOutcome.exn) now st,
        t.status = TechStatus.secure := by
  intro now st t ht
  unfold checkAllTechnologies at ht
  refine checkAll_processed (fun _ => FetchOutcome.exn) now
    (fun t => t.status = TechStatus.secure) ?_ st st ?_ t ht
  · intro tech t0
    rfl
  · intro t0 ht0
    exact Or.inl (List.mem_map_of_mem _ ht0)

/-- Witness for C2 (amended): the single technology of the concrete
bulk check ends with status secure. -/
theorem C2_checkAll_failing_is_secure_witness :
    Technology.status
      { id := "t2", name := "Express", vendor := "expressjs",
        status := TechStatus.secure, vulnerabilityCount := 0,
        criticalCount := 0, highCount := 0, topCves := [],
        lastCheckedAt := some 7 } = TechStatus.secure :=
  C2_checkAll_failing_is_secure 7 [demoTech2] _ (by decide)

/-- Claim C9: the critical and high counts of a technology never
exceed its total vulnerability count — the fetch result satisfies the
bound under the pagination contract of the external database, both the
bulk check and the single check preserve the bound for every stored
row, and the seeded defaults satisfy it. -/
theorem C9_counts_never_exceed_total :
    (∀ outcome, paginationOk outcome →
        (fetchCvesForTechnology outcome).criticalCount ≤
            (fetchCvesForTechnology outcome).totalCount ∧
          (fetchCvesForTechnology outcome).highCount ≤
            (fetchCvesForTechnology outcome).totalCount) ∧
      (∀ (env : Technology → FetchOutcome) (now : Nat) (st : List Technology),
        (∀ tech, paginationOk (env tech)) →
        ∀ t ∈ checkAllTechnologies env now st, techCountsInv t) ∧
      (∀ (outcome : FetchOutcome) (now : Nat) (st : List Technology)
          (tech : Technology), paginationOk outcome →
        (∀ t ∈ st, techCountsInv t) →
        ∀ t ∈ checkSingleTechnology outcome now st tech, techCountsInv t) ∧
      (∀ st : List Technology, (∀ t ∈ st, techCountsInv t) →
        ∀ t ∈ seedTechnologies st, techCountsInv t) := by
  refine ⟨fetch_counts_le, ?_, ?_, ?_⟩
  · intro env now st henv t ht
    unfold checkAllTechnologies at ht
    refine checkAll_processed env now techCountsInv ?_ st st ?_ t ht
    · intro tech t0
      exact fetch_counts_le (env tech) (henv tech)
    · intro t0 ht0
      exact Or.inl (List.mem_map_of_mem _ ht0)
  · intro outcome now st tech h hinv t ht
    rw [checkSingle_eq_map] at ht
    rcases List.mem_map.mp ht with ⟨t0, ht0, rfl⟩
    by_cases hid : t0.id = tech.id
    · simpa [hid] using fetch_counts_le outcome h
    · simpa [hid] using hinv t0 ht0
  · intro st hinv t ht
    by_cases hlen : st.length = 0
    · have hnil : st = [] := List.length_eq_zero.mp hlen
      subst hnil
      revert t ht
      decide
    · rw [seedTechnologies, if_neg hlen] at ht
      exact hinv t ht

/-- A technology and store used to evaluate the single check. -/
def demoTech9 : Technology :=
  { id := "t9", name := "Redis", vendor := "redis", status := .unknown,
    vulnerabilityCount := 0, criticalCount := 0, highCount := 0,
    topCves := [], lastCheckedAt := none }

/-- Witness for C9: the single-check component instantiated at a
concrete store whose one row ends with counts satisfying the bound. -/
theorem C9_counts_never_exceed_total_witness :
    techCountsInv
      { id := "t9", name := "Redis", vendor := "redis",
        status := TechStatus.secure, vulnerabilityCount := 0,
        criticalCount := 0, highCount := 0, topCves := [],
        lastCheckedAt := some 3 } :=
  C9_counts_never_exceed_total.2.2.1 FetchOutcome.exn 3 [demoTech9] demoTech9
    trivial (by decide) _ (by decide)

/-- Claim C10: deleting a technology reports success even when no
technology with that id exists: the storage delete returns true
unconditionally and the endpoint answers the success payload; the
unknown-id case produces no not-found error. -/
theorem C10_delete_unknown_id_success :
    (∀ (st : List Technology) (id : String),
        (deleteTechnology st id).2 = true ∧
          (routeDeleteTechnology st id).2 = DeleteResponse.successTrue) ∧
      (∀ (st : List Technology) (id : String),
        (∀ t ∈ st, t.id ≠ id) →
        (routeDeleteTechnology st id).2 = DeleteResponse.successTrue) := by
  refine ⟨fun st id => ⟨rfl, rfl⟩, fun st id _ => rfl⟩

/-- A stored technology used to evaluate the delete endpoint. -/
def demoTech10 : Technology :=
  { id := "t10", name := "Django", vendor := "djangoproject", status := .unknown,
    vulnerabilityCount := 0, criticalCount := 0, highCount := 0,
    topCves := [], lastCheckedAt := none }

/-- Witness for C10: deleting an id absent from a concrete store still
answers the success payload. -/
theorem C10_delete_unknown_id_success_witness :
    (routeDeleteTechnology [demoTech10] "missing").2 = DeleteResponse.successTrue :=
  C10_delete_unknown_id_success.2 [demoTech10] "missing" (by decide)

/-- Claim C1 (code bug): a scan cancelled while its scheduled
completion is pending does not keep the cancelled status — the
completion callback never reads the status, so when it fires it
overwrites the cancelled scan with status completed and a populated
score, although the status it would have observed is not running. -/
theorem C1_completion_overwrites_cancelled :
    cancelScan 5 { status := .running, overallScore := none, completedAt := none } =
        some { status := .cancelled, overallScore := none, completedAt := some 5 } ∧
      ({ status := .cancelled, overallScore := none, completedAt := some 5 } : Scan).status ≠
        ScanStatus.running ∧
      completionSuccess [] 8
          { status := .cancelled, overallScore := none, completedAt := some 5 } =
        { status := .completed, overallScore := some 100, completedAt := some 8 } := by
  refine ⟨by decide, by decide, by decide⟩

/-- Claim C3 (code bug): a terminal status is not stable — the
cancelled scan of the cancellation trace is terminal, yet the scheduled
completion callback later changes its status to completed, because the
unconditional merge of updateScan applies any update to any status. -/
theorem C3_terminal_status_changes :
    (ScanStatus.cancelled).isTerminal = true ∧
      (completionSuccess [Severity.medium] 8
          { status := .cancelled, overallScore := none, completedAt := some 5 }).status =
        ScanStatus.completed ∧
      ScanStatus.completed ≠ ScanStatus.cancelled := by
  refine ⟨by decide, by decide, by decide⟩

/-- A technology used to evaluate the single check under a storage
fault. -/
def demoTech4 : Technology :=
  { id := "t4", name := "MongoDB", vendor := "mongodb", status := .unknown,
    vulnerabilityCount := 0, criticalCount := 0, highCount := 0,
    topCves := [], lastCheckedAt := none }

/-- Claim C4 (code bug): when the final storage write of the single
check rejects with an I/O error, the operation finishes (the promise
rejects) with the technology still marked checking — the single check
has no error handling and never reverts the status to unknown. -/
theorem C4_storage_failure_leaves_checking :
    checkSingleTechnologyF (fun i => decide (i = 1)) FetchOutcome.exn 9
        [demoTech4] demoTech4 =
      Except.error [applyTechUpdates demoTech4 checkingUpdate] ∧
      (applyTechUpdates demoTech4 checkingUpdate).status = TechStatus.checking ∧
      TechStatus.checking ≠ TechStatus.unknown := by
  refine ⟨rfl, rfl, by decide⟩

/-- Counterexample for C8 as stated: under the event-loop schedule in
which two overlapping calls both read the shared timestamp before
either writes it, both outbound requests begin at the same instant —
the second does not begin the minimum interval after the first. -/
theorem C8_counterexample :
    overlappedRuns 0 1 2 = (6500, 6500) ∧
      ¬ ((overlappedRuns 0 1 2).1 + RATE_LIMIT_DELAY ≤ (overlappedRuns 0 1 2).2) := by
  refine ⟨by decide, by decide⟩

/-- Claim C8 (amended): two calls through the rate-limited client that
do not overlap — the second call begins no earlier than the instant the
first wrote the shared timestamp — start their outbound requests at
least the fixed minimum interval apart; overlapping concurrent calls
can both observe the stale shared timestamp and begin closer together,
so only non-overlapping callers are serialized. -/
theorem C8_sequential_spacing (lastRequestTime tA tB : Nat)
    (h : (rateLimitedFetchRun tA lastRequestTime).1 ≤ tB) :
    (sequentialRuns lastRequestTime tA tB).1 + RATE_LIMIT_DELAY ≤
      (sequentialRuns lastRequestTime tA tB).2 := by
  have key : ∀ w t : Nat, w ≤ t → w + RATE_LIMIT_DELAY ≤ wakeTime t w := by
    intro w t hwt
    unfold wakeTime RATE_LIMIT_DELAY
    split_ifs with hcase <;> omega
  exact key (wakeTime tA lastRequestTime) tB h

/-- Witness for C8 (amended): a concrete non-overlapping pair of calls
is spaced by exactly the minimum interval. -/
theorem C8_sequential_spacing_witness :
    (rateLimitedFetchRun 1 0).1 ≤ 7000 ∧
      (sequentialRuns 0 1 7000).1 + RATE_LIMIT_DELAY ≤ (sequentialRuns 0 1 7000).2 :=
  ⟨by decide, C8_sequential_spacing 0 1 7000 (by decide)⟩

end SecureCheck
